import Mathlib

/-!
Verification of the resofleur client-side state-synchronization layer.

This file gives a shallow embedding, in Lean, of the reconciliation code of
the repository and proves the specified properties about it:

* the clip state reconciler (frontend/src/hooks/useResolumeClips.ts),
* the connection monitor (frontend/src/hooks/useResolumeConnection.ts),
* the API client (frontend/src/services/ResolumeApiClient.ts),
* the parameter controller (useResolumeControls hook).

Asynchronous operations are embedded as pure functions from a state and the
outcome of the awaited network call to the resulting state, together with a
record of the side effects that the operation performs (network requests
issued, refetches scheduled, errors rethrown).  Timer-based behavior
(debouncing, delayed refetches, polling backoff) is embedded by making the
scheduling decisions explicit data.  JavaScript numbers are embedded as
rationals, and JavaScript truthiness tests on nullable numbers are embedded
exactly (null and 0 are both falsy).
-/

namespace Resofleur

/-! ## Data model (frontend/src/types/resolume.types.ts) -/

/-- Embeds the ClipViewModel record: the denormalized clip used by the UI.
The thumbnail and parameter-id fields are irrelevant to the verified
properties and are elided. -/
structure ClipViewModel where
  id : Int
  name : String
  isConnected : Bool
deriving Repr, DecidableEq

/-! ## Clip state reconciler (frontend/src/hooks/useResolumeClips.ts) -/

/-- Embeds the state held by the useResolumeClips hook: the clip list,
the derived active clip id and 1-based active clip index, the manual
selection, and the loading/error bookkeeping. -/
structure ClipsState where
  clips : List ClipViewModel
  activeClipId : Option Int
  activeClipIndex : Option Nat
  selectedClipIndex : Option Nat
  isLoading : Bool
  error : Option String
deriving Repr, DecidableEq

/-- Outcome of the awaited getClipsForLayer network call: either the decoded
clips payload, or a rejection carrying an optional HTTP status code and a
message. -/
inductive FetchResult where
  | success (clipsData : List ClipViewModel)
  | failure (statusCode : Option Nat) (message : String)
deriving Repr, DecidableEq

/-- Embeds fetchClips (useResolumeClips.ts, lines 60-107) run to completion
with the component mounted throughout.  While disconnected it only clears
the clip list and returns early.  While connected it sets loading, clears
the error, awaits the network call, and on success stores the clip list and
derives the active clip from the first entry whose isConnected flag is set
(forcing the selection to follow); a 404 is mapped to the recoverable
layer-not-found condition; the finally block clears the loading flag. -/
def fetchClipsRun (isConnected : Bool) (layerIndex : Nat) (s : ClipsState)
    (result : FetchResult) : ClipsState :=
  if !isConnected then
    { s with clips := [] }
  else
    match result with
    | .success clipsData =>
      let base := { s with error := none, clips := clipsData, isLoading := false }
      match clipsData.find? (fun clip => clip.isConnected) with
      | some activeClip =>
        let activeIdx := clipsData.findIdx (fun clip => clip.isConnected)
        { base with
            activeClipId := some activeClip.id
            activeClipIndex := some (activeIdx + 1)
            selectedClipIndex := some (activeIdx + 1) }
      | none =>
        { base with activeClipId := none, activeClipIndex := none }
    | .failure statusCode message =>
      if statusCode = some 404 then
        { s with
            clips := []
            error := some ("Layer " ++ toString layerIndex ++ " not found in Resolume composition")
            isLoading := false }
      else
        { s with error := some message, isLoading := false }

/-- Embeds the optimistic part of triggerClip (useResolumeClips.ts, lines
124-131): the locally cached clip at the 1-based target index, when present,
becomes the active clip and the selection follows; when the cache has no
clip at that index nothing is updated. -/
def triggerOptimistic (clipIndex : Nat) (s : ClipsState) : ClipsState :=
  match s.clips.get? (clipIndex - 1) with
  | some targetClip =>
    { s with
        activeClipId := some targetClip.id
        activeClipIndex := some clipIndex
        selectedClipIndex := some clipIndex }
  | none => s

/-- Outcome of an awaited fire-and-forget mutation call (triggerClip or
clearLayer on the API client). -/
inductive CallOutcome where
  | success
  | failure (message : String)
deriving Repr, DecidableEq

/-- Result of running a trigger or clear operation: the hook state when the
operation finishes, the delay of the refetch it scheduled with setTimeout
(if any), whether it invoked an immediate refetch in its catch block, and
the error it rethrew to its caller (if any). -/
structure MutationResult where
  state : ClipsState
  delayedRefetchMs : Option Nat
  immediateRefetch : Bool
  thrown : Option String
deriving Repr, DecidableEq

/-- Embeds triggerClip (useResolumeClips.ts, lines 119-146).  Disconnected
calls throw without touching state.  Otherwise the optimistic update runs
before the connect call; on success a 500ms refetch is scheduled; on failure
the catch block refetches immediately and rethrows. -/
def triggerClipRun (isConnected : Bool) (clipIndex : Nat) (s : ClipsState)
    (outcome : CallOutcome) : MutationResult :=
  if !isConnected then
    { state := s, delayedRefetchMs := none, immediateRefetch := false
      thrown := some "Not connected to Resolume" }
  else
    let s1 := triggerOptimistic clipIndex s
    match outcome with
    | .success =>
      { state := s1, delayedRefetchMs := some 500, immediateRefetch := false, thrown := none }
    | .failure message =>
      { state := s1, delayedRefetchMs := none, immediateRefetch := true, thrown := some message }

/-- Embeds clearLayer (useResolumeClips.ts, lines 151-172): optimistically
nulls active id, active index and selection, then issues the clear call; on
success a 300ms refetch is scheduled; on failure the catch block refetches
immediately and rethrows. -/
def clearLayerRun (isConnected : Bool) (s : ClipsState)
    (outcome : CallOutcome) : MutationResult :=
  if !isConnected then
    { state := s, delayedRefetchMs := none, immediateRefetch := false
      thrown := some "Not connected to Resolume" }
  else
    let s1 := { s with activeClipId := none, activeClipIndex := none, selectedClipIndex := none }
    match outcome with
    | .success =>
      { state := s1, delayedRefetchMs := some 300, immediateRefetch := false, thrown := none }
    | .failure message =>
      { state := s1, delayedRefetchMs := none, immediateRefetch := true, thrown := some message }

/-- The consistency property of the derived active clip: the id and the
1-based index are either both absent or both present. -/
def activeConsistent (s : ClipsState) : Prop :=
  s.activeClipId.isSome = s.activeClipIndex.isSome

instance (s : ClipsState) : Decidable (activeConsistent s) := by
  unfold activeConsistent; infer_instance

/-! ## Connection monitor (frontend/src/hooks/useResolumeConnection.ts) -/

/-- POLLING_CONFIG.INITIAL_INTERVAL: 2 seconds. -/
def POLLING_INITIAL_INTERVAL : ℚ := 2000

/-- POLLING_CONFIG.MAX_INTERVAL: 30 seconds. -/
def POLLING_MAX_INTERVAL : ℚ := 30000

/-- POLLING_CONFIG.BACKOFF_MULTIPLIER: 1.5. -/
def POLLING_BACKOFF_MULTIPLIER : ℚ := 3 / 2

/-- POLLING_CONFIG.SUCCESS_INTERVAL: 5 seconds when connected. -/
def POLLING_SUCCESS_INTERVAL : ℚ := 5000

/-- Embeds the state of the useResolumeConnection hook that the verified
properties concern: the connected flag, the error message, the loading
flag, and the pollingIntervalRef value used to schedule the next check.
The stored raw status payload is elided. -/
structure ConnState where
  isConnected : Bool
  error : Option String
  isLoading : Bool
  interval : ℚ
deriving Repr, DecidableEq

/-- Outcome of the awaited getConnectionStatus call: either the decoded
status payload (of which only the connected flag matters here) or a
rejection with a message. -/
inductive StatusOutcome where
  | resolved (connected : Bool)
  | rejected (message : String)
deriving Repr, DecidableEq

/-- Embeds checkConnection (useResolumeConnection.ts, lines 52-84) run with
the component mounted.  A resolved call stores the status and clears the
error, and resets the interval to the success interval only when the status
reports connected.  A rejected call records the error, marks disconnected,
and grows the interval by the backoff multiplier up to the ceiling. -/
def checkConnection (s : ConnState) (o : StatusOutcome) : ConnState :=
  match o with
  | .resolved connected =>
    let s1 := { s with isConnected := connected, error := none, isLoading := false }
    if connected then { s1 with interval := POLLING_SUCCESS_INTERVAL } else s1
  | .rejected message =>
    { s with
        error := some message
        isConnected := false
        isLoading := false
        interval := min (s.interval * POLLING_BACKOFF_MULTIPLIER) POLLING_MAX_INTERVAL }

/-- Embeds the self-rescheduling polling loop (useResolumeConnection.ts,
lines 109-115): each check is scheduled after the current interval value,
and upon completion the next check is scheduled after the updated interval.
Returns the final state together with the list of delays used to schedule
each executed check. -/
def runChecks : ConnState → List StatusOutcome → ConnState × List ℚ
  | s, [] => (s, [])
  | s, o :: os =>
    let rest := runChecks (checkConnection s o) os
    (rest.1, s.interval :: rest.2)

/-! ## API client (frontend/src/services/ResolumeApiClient.ts) -/

/-- The fixed time-to-live of the GET cache (cacheTTL, 1 second). -/
def cacheTTL : Nat := 1000

/-- One entry of the requestCache map: the decoded payload and the
timestamp recorded when it was stored. -/
structure CacheEntry where
  data : String
  timestamp : Nat
deriving Repr, DecidableEq

/-- Embeds the client state that the verified properties concern: the
requestCache map, keyed by method_URL strings.  The map is embedded as an
association list with JavaScript Map semantics (set replaces in place). -/
structure ClientState where
  cache : List (String × CacheEntry)
deriving Repr, DecidableEq

/-- Lookup in the embedded request cache. -/
def cacheLookup (cache : List (String × CacheEntry)) (key : String) : Option CacheEntry :=
  (cache.find? (fun kv => kv.1 = key)).map (fun kv => kv.2)

/-- JavaScript Map.set: replace the entry at the key if present, otherwise
append a new entry. -/
def cacheSet : List (String × CacheEntry) → String → CacheEntry → List (String × CacheEntry)
  | [], key, e => [(key, e)]
  | kv :: rest, key, e =>
    if kv.1 = key then (key, e) :: rest else kv :: cacheSet rest key e

/-- The response produced by the awaited fetch: an HTTP response with a
status code and a decoded body, or a network-level failure. -/
inductive NetResponse where
  | httpResponse (status : Nat) (body : String)
  | netFailure (message : String)
deriving Repr, DecidableEq

/-- The typed errors thrown by the client (ResolumeApiError): a client-side
validation failure, a non-2xx HTTP response carrying the status and the
endpoint, or a network failure. -/
inductive ApiErr where
  | validation (message : String)
  | http (status : Nat) (endpoint : String)
  | network (message : String)
deriving Repr, DecidableEq

/-- Result of one client operation: the client state afterwards, whether a
network call was issued, and the decoded payload or the thrown error. -/
structure RequestResult where
  state : ClientState
  networkCalled : Bool
  result : Except ApiErr String
deriving Repr

/-- The cache key of a request: method (defaulted to GET) and full URL,
joined exactly as in the source (ResolumeApiClient.ts, line 71). -/
def cacheKeyOf (method : Option String) (url : String) : String :=
  method.getD "GET" ++ "_" ++ url

/-- A request is GET-equivalent when no method or an explicit GET method is
given (ResolumeApiClient.ts, lines 76 and 109). -/
def isGetLike (method : Option String) : Bool :=
  method = none || method = some "GET"

/-- Embeds the generic request handler (ResolumeApiClient.ts, lines 66-114).
The baseUrl is empty (same-origin deployment), so the full URL is the
endpoint.  GET-equivalent requests first consult the cache and return the
cached decoded payload when the entry is younger than the TTL.  Otherwise
the fetch is issued: a non-2xx status throws the typed HTTP error without
reading the body, a 204 yields an empty object, and any other success
decodes the body and, for GET-equivalent requests, stores it in the cache
stamped with the current time. -/
def request (method : Option String) (endpoint : String) (now : Nat)
    (net : NetResponse) (st : ClientState) : RequestResult :=
  let url := endpoint
  let key := cacheKeyOf method url
  let cachedFresh : Option String :=
    if isGetLike method then
      match cacheLookup st.cache key with
      | some e => if now - e.timestamp < cacheTTL then some e.data else none
      | none => none
    else none
  match cachedFresh with
  | some data => { state := st, networkCalled := false, result := .ok data }
  | none =>
    match net with
    | .netFailure message =>
      { state := st, networkCalled := true, result := .error (.network message) }
    | .httpResponse status body =>
      if status < 200 || 300 ≤ status then
        { state := st, networkCalled := true, result := .error (.http status endpoint) }
      else if status = 204 then
        { state := st, networkCalled := true, result := .ok "\x7b\x7d" }
      else
        let st1 :=
          if isGetLike method then
            { cache := cacheSet st.cache key { data := body, timestamp := now } }
          else st
        { state := st1, networkCalled := true, result := .ok body }

/-- Embeds the setBpm client operation (ResolumeApiClient.ts, lines
174-181): values below 20 or above 999 throw the validation error before
any network activity; in-range values issue the POST request. -/
def clientSetBpm (bpm : ℚ) (now : Nat) (net : NetResponse) (st : ClientState) : RequestResult :=
  if bpm < 20 ∨ bpm > 999 then
    { state := st, networkCalled := false
      result := .error (.validation "BPM must be between 20 and 999") }
  else
    request (some "POST") ("/api/resolume/composition/tempo/bpm?bpm=" ++ toString bpm) now net st

/-! ## Parameter controller (useResolumeControls hook) -/

/-- A scheduled debounce timeout: the handle returned by setTimeout and the
value its callback will commit. -/
structure Timer where
  id : Nat
  value : ℚ
deriving Repr, DecidableEq

/-- The identifiers of the timers a control currently holds pending:
zero or one. -/
def pendingIds (pending : Option Timer) : List Nat :=
  match pending with
  | some t => [t.id]
  | none => []

/-- The per-control debounce machinery of one setter: the displayed local
value, the pending timeout (the ref), the handles already cancelled with
clearTimeout, and the next fresh timeout handle. -/
structure DebState where
  display : ℚ
  pending : Option Timer
  cancelled : List Nat
  nextId : Nat
deriving Repr, DecidableEq

/-- Embeds one setter invocation on its control (useResolumeControls,
the shared shape of setBpm / setOpacity / setScrubPosition): the display
value is updated immediately, the existing timeout (if any) is cancelled
with clearTimeout, and a fresh commit timeout is scheduled. -/
def debSet (v : ℚ) (d : DebState) : DebState :=
  { display := v
    pending := some { id := d.nextId, value := v }
    cancelled := d.cancelled ++ pendingIds d.pending
    nextId := d.nextId + 1 }

/-- A network write issued by a debounced commit, carrying the wire-domain
value sent in the query string. -/
inductive NetWrite where
  | bpmWrite (value : ℚ)
  | layerOpacityWrite (layer : Nat) (value : ℚ)
  | clipPositionWrite (layer : Nat) (clip : Nat) (value : ℚ)
deriving Repr, DecidableEq

/-- Embeds the state of the useResolumeControls hook: the three debounced
controls, the shared error string, the three per-control loading flags, and
the log of network writes issued so far. -/
structure ControlsWorld where
  bpmCtl : DebState
  opacityCtl : DebState
  scrubCtl : DebState
  error : Option String
  isBpmLoading : Bool
  isOpacityLoading : Bool
  isScrubbing : Bool
  netWrites : List NetWrite
deriving Repr, DecidableEq

/-- Embeds the setBpm setter (useResolumeControls, lines 127-154): the
optimistic display update and error reset happen synchronously, the prior
timeout is cancelled, and a new commit is scheduled. -/
def setBpmHook (v : ℚ) (w : ControlsWorld) : ControlsWorld :=
  { w with bpmCtl := debSet v w.bpmCtl, error := none }

/-- Embeds the setOpacity setter (useResolumeControls, lines 162-194):
identical debounce shape; the display holds the UI-domain 0-100 value. -/
def setOpacityHook (v : ℚ) (w : ControlsWorld) : ControlsWorld :=
  { w with opacityCtl := debSet v w.opacityCtl, error := none }

/-- JavaScript truthiness of a nullable number: null and 0 are falsy. -/
def jsTruthyInt (x : Option Int) : Bool :=
  match x with
  | none => false
  | some n => n != 0

/-- JavaScript truthiness of a nullable index: null and 0 are falsy. -/
def jsTruthyNat (x : Option Nat) : Bool :=
  match x with
  | none => false
  | some n => n != 0

/-- Embeds the setScrubPosition setter (useResolumeControls, lines
202-230): the guard returns before any effect unless isConnected and both
activeClipId and activeClipIndex are truthy; past the guard the debounce
shape is the same as the other two setters. -/
def setScrubPositionHook (isConnected : Bool) (activeClipId : Option Int)
    (activeClipIndex : Option Nat) (v : ℚ) (w : ControlsWorld) : ControlsWorld :=
  if !isConnected || !jsTruthyInt activeClipId || !jsTruthyNat activeClipIndex then w
  else { w with scrubCtl := debSet v w.scrubCtl, error := none }

/-- The network writes that resolumeApi.setBpm issues for a committed
value: the validation check throws for out-of-range values before any
network call, otherwise exactly the BPM POST is issued. -/
def apiSetBpmWrites (v : ℚ) : Except String (List NetWrite) :=
  if v < 20 ∨ v > 999 then .error "BPM must be between 20 and 999"
  else .ok [.bpmWrite v]

/-- The network writes that resolumeApi.setLayerOpacity issues for a
committed wire-domain value: out-of-range values throw before any network
call, otherwise exactly the opacity POST is issued. -/
def apiSetLayerOpacityWrites (layer : Nat) (v : ℚ) : Except String (List NetWrite) :=
  if v < 0 ∨ v > 1 then .error "Opacity must be between 0 and 1"
  else .ok [.layerOpacityWrite layer v]

/-- The network writes that resolumeApi.setClipPosition issues for a
committed position: out-of-range values throw before any network call,
otherwise exactly the position POST is issued. -/
def apiSetClipPositionWrites (layer clip : Nat) (v : ℚ) : Except String (List NetWrite) :=
  if v < 0 ∨ v > 1 then .error "Position must be between 0 and 1"
  else .ok [.clipPositionWrite layer clip v]

/-- Combines the API call of a debounced commit with the outcome of its
network request: a validation throw happens before the network and is
caught like any other failure; otherwise the writes are issued and the
network outcome (none for fulfilled, a message for rejected) decides the
caught error. -/
def commitResult (writes : Except String (List NetWrite)) (netResult : Option String) :
    List NetWrite × Option String :=
  match writes with
  | .error message => ([], some message)
  | .ok ws => (ws, netResult)

/-- Embeds the debounced BPM commit callback (useResolumeControls, lines
140-153) firing: the loading flag is set, resolumeApi.setBpm is awaited,
the catch block records the error message without consulting the liveness
flag, and the finally block clears the loading flag only when the
component is still mounted.  The mounted argument is the value of
isMountedRef when the awaited call settles. -/
def fireBpm (netResult : Option String) (mounted : Bool) (w : ControlsWorld) : ControlsWorld :=
  match w.bpmCtl.pending with
  | none => w
  | some t =>
    let r := commitResult (apiSetBpmWrites t.value) netResult
    let w1 := { w with
                  bpmCtl := { w.bpmCtl with pending := none }
                  isBpmLoading := true
                  netWrites := w.netWrites ++ r.1 }
    let w2 := match r.2 with
              | some message => { w1 with error := some message }
              | none => w1
    if mounted then { w2 with isBpmLoading := false } else w2

/-- Embeds the debounced opacity commit callback (useResolumeControls,
lines 175-193) firing: the UI-domain value is divided by 100 before the
layer-opacity write; error and loading handling as in the BPM commit. -/
def fireOpacity (layer : Nat) (netResult : Option String) (mounted : Bool)
    (w : ControlsWorld) : ControlsWorld :=
  match w.opacityCtl.pending with
  | none => w
  | some t =>
    let r := commitResult (apiSetLayerOpacityWrites layer (t.value / 100)) netResult
    let w1 := { w with
                  opacityCtl := { w.opacityCtl with pending := none }
                  isOpacityLoading := true
                  netWrites := w.netWrites ++ r.1 }
    let w2 := match r.2 with
              | some message => { w1 with error := some message }
              | none => w1
    if mounted then { w2 with isOpacityLoading := false } else w2

/-- Embeds the debounced scrub commit callback (useResolumeControls, lines
215-229) firing, with the captured layer index and active clip index:
error and loading handling as in the BPM commit. -/
def fireScrub (layer clip : Nat) (netResult : Option String) (mounted : Bool)
    (w : ControlsWorld) : ControlsWorld :=
  match w.scrubCtl.pending with
  | none => w
  | some t =>
    let r := commitResult (apiSetClipPositionWrites layer clip t.value) netResult
    let w1 := { w with
                  scrubCtl := { w.scrubCtl with pending := none }
                  isScrubbing := true
                  netWrites := w.netWrites ++ r.1 }
    let w2 := match r.2 with
              | some message => { w1 with error := some message }
              | none => w1
    if mounted then { w2 with isScrubbing := false } else w2

/-- A sequence of debounce-window calls on one control. -/
def debApply (vs : List ℚ) (d : DebState) : DebState :=
  vs.foldl (fun d v => debSet v d) d

/-- A rapid sequence of setBpm calls within one debounce window. -/
def applyBpmCalls (vs : List ℚ) (w : ControlsWorld) : ControlsWorld :=
  vs.foldl (fun w v => setBpmHook v w) w

/-- A rapid sequence of setOpacity calls within one debounce window. -/
def applyOpacityCalls (vs : List ℚ) (w : ControlsWorld) : ControlsWorld :=
  vs.foldl (fun w v => setOpacityHook v w) w

/-- A rapid sequence of setScrubPosition calls within one debounce
window, under fixed connection and active-clip inputs. -/
def applyScrubCalls (isConnected : Bool) (activeClipId : Option Int)
    (activeClipIndex : Option Nat) (vs : List ℚ) (w : ControlsWorld) : ControlsWorld :=
  vs.foldl (fun w v => setScrubPositionHook isConnected activeClipId activeClipIndex v w) w

/-- A clean debounce control with no pending commit, as on mount. -/
def initDeb : DebState :=
  { display := 0, pending := none, cancelled := [], nextId := 0 }

/-- The controls world on mount: default display values, no pending
commits, no error, nothing in flight, nothing written. -/
def initControls : ControlsWorld :=
  { bpmCtl := { initDeb with display := 120 }
    opacityCtl := { initDeb with display := 100 }
    scrubCtl := initDeb
    error := none
    isBpmLoading := false
    isOpacityLoading := false
    isScrubbing := false
    netWrites := [] }

/-! ## Concrete example states used by witnesses and counterexamples -/

/-- A disconnected clip in slot 1 of the locally cached clip list. -/
def clipA : ClipViewModel := { id := 7, name := "A", isConnected := false }

/-- A clip reconciler state whose local cache holds a single clip. -/
def trigExampleState : ClipsState :=
  { clips := [clipA], activeClipId := none, activeClipIndex := none
    selectedClipIndex := none, isLoading := false, error := none }

/-- The clip reconciler state on mount: everything empty. -/
def emptyClipsState : ClipsState :=
  { clips := [], activeClipId := none, activeClipIndex := none
    selectedClipIndex := none, isLoading := false, error := none }

/-- A fetched clip list whose first connected entry sits at 0-based
index 2. -/
def derivExampleClips : List ClipViewModel :=
  [ { id := 11, name := "one", isConnected := false }
  , { id := 12, name := "two", isConnected := false }
  , { id := 13, name := "three", isConnected := true } ]

/-- A connection monitor state mid-backoff, with the poll interval at
4500ms. -/
def connExampleState : ConnState :=
  { isConnected := true, error := none, isLoading := false, interval := 4500 }

/-- A controls world in which the debounced BPM commit has fired and its
request is in flight while the component unmounts. -/
def teardownExampleWorld : ControlsWorld :=
  { initControls with
      bpmCtl := { display := 100, pending := some { id := 0, value := 100 }
                  cancelled := [], nextId := 1 } }

/-! ## List helper lemmas -/

/-- The element found by find? is the element at the index found by
findIdx, for the same predicate. -/
theorem find?_eq_get?_findIdx (p : α → Bool) (l : List α) :
    l.find? p = l.get? (l.findIdx p) := by
  induction l with
  | nil => rfl
  | cons a l ih =>
    by_cases h : p a
    · simp [List.find?_cons_of_pos _ h, List.findIdx_cons, h]
    · simp [List.find?_cons_of_neg _ h, List.findIdx_cons, h, ih]

/-- findIdx returns exactly the first index satisfying the predicate. -/
theorem findIdx_eq_of_first (p : α → Bool) (l : List α) (i : Nat) (hi : i < l.length)
    (hp : p (l.get ⟨i, hi⟩) = true)
    (hmin : ∀ j (hj : j < i), p (l.get ⟨j, Nat.lt_trans hj hi⟩) = false) :
    l.findIdx p = i := by
  induction l generalizing i with
  | nil => simp at hi
  | cons a l ih =>
    cases i with
    | zero =>
      simp only [List.get] at hp
      simp [List.findIdx_cons, hp]
    | succ j =>
      have ha : p a = false := hmin 0 (Nat.succ_pos j)
      have hj : j < l.length := Nat.lt_of_succ_lt_succ hi
      simp only [List.get] at hp
      rw [List.findIdx_cons]
      simp only [ha, cond_false]
      congr 1
      exact ih j hj hp (fun k hk => hmin (k + 1) (Nat.succ_lt_succ hk))

/-! ## C10 -/

/-- C10: when the clip reconciler's fetch runs while disconnected, only
the clip list is cleared; active clip id, active clip index, selected
index (and the loading and error bookkeeping) keep their previous
values. -/
theorem C10_disconnected_fetch (s : ClipsState) (layerIndex : Nat) (result : FetchResult) :
    (fetchClipsRun false layerIndex s result).clips = [] ∧
    (fetchClipsRun false layerIndex s result).activeClipId = s.activeClipId ∧
    (fetchClipsRun false layerIndex s result).activeClipIndex = s.activeClipIndex ∧
    (fetchClipsRun false layerIndex s result).selectedClipIndex = s.selectedClipIndex ∧
    (fetchClipsRun false layerIndex s result).isLoading = s.isLoading ∧
    (fetchClipsRun false layerIndex s result).error = s.error :=
  ⟨rfl, rfl, rfl, rfl, rfl, rfl⟩

/-! ## C9 -/

/-- C9: the invariant that active clip id and active clip index are both
absent or both present is preserved by every clip reconciler operation:
the fetch-derived update, the optimistic trigger, and the clear. -/
theorem C9_active_invariant (s : ClipsState) (h : activeConsistent s) :
    (∀ (isConnected : Bool) (layerIndex : Nat) (result : FetchResult),
        activeConsistent (fetchClipsRun isConnected layerIndex s result)) ∧
    (∀ (isConnected : Bool) (clipIndex : Nat) (outcome : CallOutcome),
        activeConsistent (triggerClipRun isConnected clipIndex s outcome).state) ∧
    (∀ (isConnected : Bool) (outcome : CallOutcome),
        activeConsistent (clearLayerRun isConnected s outcome).state) := by
  refine ⟨?_, ?_, ?_⟩
  · intro isConnected layerIndex result
    unfold fetchClipsRun
    cases isConnected with
    | false => simpa [activeConsistent] using h
    | true =>
      cases result with
      | success clipsData =>
        cases hf : clipsData.find? (fun clip => clip.isConnected) with
        | some c => simp [activeConsistent, hf]
        | none => simp [activeConsistent, hf]
      | failure statusCode message =>
        by_cases h404 : statusCode = some 404 <;>
          simpa [activeConsistent, h404] using h
  · intro isConnected clipIndex outcome
    unfold triggerClipRun triggerOptimistic
    cases isConnected with
    | false => simpa [activeConsistent] using h
    | true =>
      cases outcome with
      | success =>
        cases hg : s.clips.get? (clipIndex - 1) with
        | some c => simp [activeConsistent, hg]
        | none => simpa [activeConsistent, hg] using h
      | failure message =>
        cases hg : s.clips.get? (clipIndex - 1) with
        | some c => simp [activeConsistent, hg]
        | none => simpa [activeConsistent, hg] using h
  · intro isConnected outcome
    unfold clearLayerRun
    cases isConnected with
    | false => simpa [activeConsistent] using h
    | true => cases outcome <;> simp [activeConsistent]

/-- Witness for C9 at concrete inputs: the invariant holds for the
freshly mounted state and is preserved by a connected fetch and by a
trigger. -/
theorem C9_active_invariant_witness :
    activeConsistent (fetchClipsRun true 1 emptyClipsState (.success derivExampleClips)) ∧
    activeConsistent (triggerClipRun true 3 emptyClipsState .success).state := by
  have h := C9_active_invariant emptyClipsState (by decide)
  exact ⟨h.1 true 1 (.success derivExampleClips), h.2.1 true 3 .success⟩

/-! ## C4 -/

/-- C4: a connected fetch derives the active clip from the first entry
whose connected flag is set: that entry's id and 1-based index become the
active id/index and the selection is forced to the same index; when no
entry is connected, active id and index are cleared and the selection is
left untouched. -/
theorem C4_active_derivation (s : ClipsState) (layerIndex : Nat)
    (clipsData : List ClipViewModel) :
    (∀ i (hi : i < clipsData.length),
        (clipsData.get ⟨i, hi⟩).isConnected = true →
        (∀ j (hj : j < i), (clipsData.get ⟨j, Nat.lt_trans hj hi⟩).isConnected = false) →
        (fetchClipsRun true layerIndex s (.success clipsData)).activeClipId =
            some (clipsData.get ⟨i, hi⟩).id ∧
        (fetchClipsRun true layerIndex s (.success clipsData)).activeClipIndex = some (i + 1) ∧
        (fetchClipsRun true layerIndex s (.success clipsData)).selectedClipIndex = some (i + 1)) ∧
    ((∀ i (hi : i < clipsData.length), (clipsData.get ⟨i, hi⟩).isConnected = false) →
        (fetchClipsRun true layerIndex s (.success clipsData)).activeClipId = none ∧
        (fetchClipsRun true layerIndex s (.success clipsData)).activeClipIndex = none ∧
        (fetchClipsRun true layerIndex s (.success clipsData)).selectedClipIndex =
            s.selectedClipIndex) := by
  constructor
  · intro i hi hp hmin
    have hidx : clipsData.findIdx (fun clip => clip.isConnected) = i :=
      findIdx_eq_of_first _ _ i hi hp hmin
    have hfind : clipsData.find? (fun clip => clip.isConnected) =
        some (clipsData.get ⟨i, hi⟩) := by
      rw [find?_eq_get?_findIdx, hidx, List.get?_eq_get hi]
    unfold fetchClipsRun
    simp [hfind, hidx]
  · intro hall
    have hfind : clipsData.find? (fun clip => clip.isConnected) = none := by
      rw [List.find?_eq_none]
      intro x hx
      obtain ⟨⟨i, hi⟩, rfl⟩ := List.mem_iff_get.mp hx
      simpa using hall i hi
    unfold fetchClipsRun
    simp [hfind]

/-- Witness for C4 at a concrete fetched list: the first connected entry
sits at 0-based index 2, so the active clip index and the forced
selection both resolve to 3. -/
theorem C4_active_derivation_witness :
    (fetchClipsRun true 1 emptyClipsState (.success derivExampleClips)).activeClipId = some 13 ∧
    (fetchClipsRun true 1 emptyClipsState (.success derivExampleClips)).activeClipIndex =
        some 3 ∧
    (fetchClipsRun true 1 emptyClipsState (.success derivExampleClips)).selectedClipIndex =
        some 3 := by
  have h := (C4_active_derivation emptyClipsState 1 derivExampleClips).1 2 (by decide)
      (by decide) (by intro j hj; interval_cases j <;> rfl)
  exact h

/-! ## C1 -/

/-- C1 as stated is false on the code: on a failed connect call the 500ms
delayed refetch is never scheduled (the catch block refetches immediately
and rethrows instead), and when the local cache holds no clip at the
target index the optimistic update is skipped entirely.  Both shown here
at concrete inputs: triggering clip 5 while the cache holds one clip. -/
theorem C1_counterexample :
    (triggerClipRun true 5 trigExampleState (.failure "connect failed")).delayedRefetchMs =
        none ∧
    (triggerClipRun true 5 trigExampleState (.failure "connect failed")).state.activeClipIndex =
        none ∧
    (triggerClipRun true 5 trigExampleState (.failure "connect failed")).state.selectedClipIndex =
        none :=
  ⟨rfl, rfl, rfl⟩

/-- C1 amended: on a connected trigger of a 1-based clip index, if the
locally cached clip list has an entry at that index then active id, active
index and selection are optimistically set to the target before the
connect call resolves (and otherwise no optimistic update occurs); the
delayed 500ms refetch is scheduled only on success; on failure the
operation refetches immediately, schedules no delayed refetch, and
rethrows the error to the caller. -/
theorem C1_trigger_amended (s : ClipsState) (clipIndex : Nat) (outcome : CallOutcome)
    (hIdx : 1 ≤ clipIndex) :
    (∀ c, s.clips.get? (clipIndex - 1) = some c →
        (triggerOptimistic clipIndex s).activeClipId = some c.id ∧
        (triggerOptimistic clipIndex s).activeClipIndex = some clipIndex ∧
        (triggerOptimistic clipIndex s).selectedClipIndex = some clipIndex) ∧
    (s.clips.get? (clipIndex - 1) = none → triggerOptimistic clipIndex s = s) ∧
    (triggerClipRun true clipIndex s outcome).state = triggerOptimistic clipIndex s ∧
    (outcome = .success →
        (triggerClipRun true clipIndex s outcome).delayedRefetchMs = some 500 ∧
        (triggerClipRun true clipIndex s outcome).immediateRefetch = false ∧
        (triggerClipRun true clipIndex s outcome).thrown = none) ∧
    (∀ message, outcome = .failure message →
        (triggerClipRun true clipIndex s outcome).delayedRefetchMs = none ∧
        (triggerClipRun true clipIndex s outcome).immediateRefetch = true ∧
        (triggerClipRun true clipIndex s outcome).thrown = some message) := by
  refine ⟨?_, ?_, ?_, ?_, ?_⟩
  · intro c hc
    unfold triggerOptimistic
    rw [hc]
    exact ⟨rfl, rfl, rfl⟩
  · intro hc
    unfold triggerOptimistic
    rw [hc]
  · cases outcome <;> rfl
  · rintro rfl
    exact ⟨rfl, rfl, rfl⟩
  · rintro message rfl
    exact ⟨rfl, rfl, rfl⟩

/-- Witness for the amended C1 at concrete inputs: triggering the cached
clip 1 with a failing connect call sets the optimistic fields, refetches
immediately, and schedules no delayed refetch. -/
theorem C1_trigger_amended_witness :
    (triggerOptimistic 1 trigExampleState).activeClipId = some 7 ∧
    (triggerOptimistic 1 trigExampleState).activeClipIndex = some 1 ∧
    (triggerClipRun true 1 trigExampleState (.failure "boom")).immediateRefetch = true ∧
    (triggerClipRun true 1 trigExampleState (.failure "boom")).delayedRefetchMs = none := by
  have h := C1_trigger_amended trigExampleState 1 (.failure "boom") (by decide)
  exact ⟨(h.1 clipA rfl).1, (h.1 clipA rfl).2.1,
    (h.2.2.2.2 "boom" rfl).2.1, (h.2.2.2.2 "boom" rfl).1⟩

/-! ## C2 -/

/-- C2 as stated is false on the code: a status check that resolves
successfully but reports connected=false leaves the polling interval
unchanged instead of resetting it to the 5000ms success interval, shown
here with the interval mid-backoff at 4500ms. -/
theorem C2_counterexample :
    (checkConnection connExampleState (.resolved false)).interval = 4500 ∧
    (4500 : ℚ) ≠ POLLING_SUCCESS_INTERVAL := by
  refine ⟨rfl, ?_⟩
  unfold POLLING_SUCCESS_INTERVAL
  norm_num

/-- C2 amended: each rejected status check multiplies the polling
interval by 1.5 capped at 30000ms and records disconnection (so three
consecutive rejections starting from the 2000ms initial interval yield
scheduled delays 2000, 3000, 4500); a successful check reporting
connected=true resets the next interval to the 5000ms success interval,
while a successful check reporting connected=false leaves the interval
unchanged. -/
theorem C2_backoff_amended (s : ConnState) (message : String) :
    (checkConnection s (.rejected message)).interval =
        min (s.interval * POLLING_BACKOFF_MULTIPLIER) POLLING_MAX_INTERVAL ∧
    (checkConnection s (.rejected message)).isConnected = false ∧
    (checkConnection s (.resolved true)).interval = POLLING_SUCCESS_INTERVAL ∧
    (checkConnection s (.resolved false)).interval = s.interval ∧
    (runChecks { s with interval := POLLING_INITIAL_INTERVAL }
        [.rejected message, .rejected message, .rejected message]).2 =
      [2000, 3000, 4500] := by
  have h1 : min ((2000 : ℚ) * (3 / 2)) 30000 = 3000 := by
    rw [min_eq_left (by norm_num)]; norm_num
  have h2 : min ((3000 : ℚ) * (3 / 2)) 30000 = 4500 := by
    rw [min_eq_left (by norm_num)]; norm_num
  refine ⟨rfl, rfl, rfl, rfl, ?_⟩
  simp only [runChecks, checkConnection, POLLING_INITIAL_INTERVAL,
    POLLING_BACKOFF_MULTIPLIER, POLLING_MAX_INTERVAL, h1, h2]

/-! ## C5 -/

/-- C5 is right and the code violates it: when the component unmounts
while a debounced BPM commit's request is in flight and the request then
rejects, the catch block records the error message into state without
consulting the liveness flag (and the guarded finally block leaves the
loading flag set).  Evaluated here at the failing input: liveness flag
false, request rejecting with a network error. -/
theorem C5_teardown_eval :
    (fireBpm (some "Network error") false teardownExampleWorld).error =
        some "Network error" ∧
    (fireBpm (some "Network error") false teardownExampleWorld).isBpmLoading = true ∧
    teardownExampleWorld.error = none := by
  have hv : ¬((100 : ℚ) < 20 ∨ (100 : ℚ) > 999) := by norm_num
  refine ⟨?_, ?_, rfl⟩ <;>
    simp [fireBpm, teardownExampleWorld, apiSetBpmWrites, commitResult, initControls,
      initDeb, hv]

/-! ## Cache helper lemmas -/

/-- Looking up the key just stored with Map.set semantics returns the
stored entry. -/
theorem cacheLookup_cacheSet_self (cache : List (String × CacheEntry)) (key : String)
    (e : CacheEntry) : cacheLookup (cacheSet cache key e) key = some e := by
  induction cache with
  | nil => simp [cacheSet, cacheLookup]
  | cons kv rest ih =>
    unfold cacheSet
    by_cases h : kv.1 = key
    · simp [cacheLookup, h]
    · simpa [cacheLookup, h] using ih

/-- GET-equivalent methods normalize to the literal GET in the cache
key. -/
theorem getD_of_isGetLike (m : Option String) (h : isGetLike m = true) :
    m.getD "GET" = "GET" := by
  cases m with
  | none => rfl
  | some s =>
    simp [isGetLike] at h
    simp [h]

/-! ## C8 -/

/-- C8: the scrub-position setter is a complete no-op — state, timers and
network log all unchanged — whenever the connection is down or the active
clip id or the active clip index is absent. -/
theorem C8_scrub_gate (isConnected : Bool) (activeClipId : Option Int)
    (activeClipIndex : Option Nat) (v : ℚ) (w : ControlsWorld)
    (h : isConnected = false ∨ activeClipId = none ∨ activeClipIndex = none) :
    setScrubPositionHook isConnected activeClipId activeClipIndex v w = w := by
  unfold setScrubPositionHook
  rcases h with h | h | h
  · subst h; rfl
  · subst h; simp [jsTruthyInt]
  · subst h; simp [jsTruthyNat]

/-- Witness for C8 at a concrete input: connected but with no active clip
id, the setter leaves the world untouched. -/
theorem C8_scrub_gate_witness :
    setScrubPositionHook true none (some 3) (1 / 2) initControls = initControls :=
  C8_scrub_gate true none (some 3) (1 / 2) initControls (Or.inr (Or.inl rfl))

/-! ## C6 -/

/-- C6: the set-BPM client operation rejects values below 20 or above 999
with the validation error before any network activity (no network call,
state untouched), while values in the inclusive range [20, 999] pass the
precondition and proceed to the network call. -/
theorem C6_bpm_validation (bpm : ℚ) (now : Nat) (net : NetResponse) (st : ClientState) :
    ((bpm < 20 ∨ bpm > 999) →
        (clientSetBpm bpm now net st).networkCalled = false ∧
        (clientSetBpm bpm now net st).result =
            .error (.validation "BPM must be between 20 and 999") ∧
        (clientSetBpm bpm now net st).state = st) ∧
    (20 ≤ bpm → bpm ≤ 999 →
        (clientSetBpm bpm now net st).networkCalled = true) := by
  constructor
  · intro h
    simp [clientSetBpm, h]
  · intro h1 h2
    have h : ¬(bpm < 20 ∨ bpm > 999) := by
      push_neg
      exact ⟨h1, h2⟩
    have hng : isGetLike (some "POST") = false := rfl
    rw [clientSetBpm, if_neg h]
    cases net with
    | netFailure message => simp [request, hng]
    | httpResponse status body =>
      simp only [request, hng, Bool.false_eq_true, if_false]
      split_ifs <;> rfl

/-- Witness for C6 at the boundary inputs: 19 is rejected without a
network call, 20 and 999 reach the network. -/
theorem C6_bpm_validation_witness :
    ((clientSetBpm 19 0 (.httpResponse 200 "ok") ⟨[]⟩).networkCalled = false ∧
     (clientSetBpm 19 0 (.httpResponse 200 "ok") ⟨[]⟩).result =
        .error (.validation "BPM must be between 20 and 999") ∧
     (clientSetBpm 19 0 (.httpResponse 200 "ok") ⟨[]⟩).state = ⟨[]⟩) ∧
    (clientSetBpm 20 0 (.httpResponse 200 "ok") ⟨[]⟩).networkCalled = true ∧
    (clientSetBpm 999 0 (.httpResponse 200 "ok") ⟨[]⟩).networkCalled = true := by
  refine ⟨(C6_bpm_validation 19 0 (.httpResponse 200 "ok") ⟨[]⟩).1 (by norm_num),
    (C6_bpm_validation 20 0 (.httpResponse 200 "ok") ⟨[]⟩).2 (by norm_num) (by norm_num),
    (C6_bpm_validation 999 0 (.httpResponse 200 "ok") ⟨[]⟩).2 (by norm_num) (by norm_num)⟩

/-! ## C7 -/

/-- C7: after a successful networked GET-equivalent call, a second
GET-equivalent call to the same key strictly within the 1000ms TTL is
served from the cache — no network call, the identical decoded payload,
client state unchanged — while a call at or past the TTL falls through to
the network again. -/
theorem C7_cache_ttl (st : ClientState) (endpoint body : String) (m1 m2 : Option String)
    (now1 now2 : Nat) (net2 : NetResponse)
    (hg1 : isGetLike m1 = true) (hg2 : isGetLike m2 = true)
    (hmiss : cacheLookup st.cache (cacheKeyOf m1 endpoint) = none)
    (hle : now1 ≤ now2) :
    ((request m1 endpoint now1 (.httpResponse 200 body) st).networkCalled = true ∧
     (request m1 endpoint now1 (.httpResponse 200 body) st).result = .ok body) ∧
    (now2 - now1 < cacheTTL →
        (request m2 endpoint now2 net2
            (request m1 endpoint now1 (.httpResponse 200 body) st).state).networkCalled =
          false ∧
        (request m2 endpoint now2 net2
            (request m1 endpoint now1 (.httpResponse 200 body) st).state).result = .ok body ∧
        (request m2 endpoint now2 net2
            (request m1 endpoint now1 (.httpResponse 200 body) st).state).state =
          (request m1 endpoint now1 (.httpResponse 200 body) st).state) ∧
    (cacheTTL ≤ now2 - now1 →
        (request m2 endpoint now2 net2
            (request m1 endpoint now1 (.httpResponse 200 body) st).state).networkCalled =
          true) := by
  have hkey : cacheKeyOf m2 endpoint = cacheKeyOf m1 endpoint := by
    rw [cacheKeyOf, cacheKeyOf, getD_of_isGetLike m1 hg1, getD_of_isGetLike m2 hg2]
  have hr1 : request m1 endpoint now1 (.httpResponse 200 body) st =
      { state := { cache := cacheSet st.cache (cacheKeyOf m1 endpoint)
                     { data := body, timestamp := now1 } }
        networkCalled := true
        result := .ok body } := by
    simp [request, hg1, hmiss]
  have hhit : cacheLookup (cacheSet st.cache (cacheKeyOf m1 endpoint)
      { data := body, timestamp := now1 }) (cacheKeyOf m2 endpoint) =
      some { data := body, timestamp := now1 } := by
    rw [hkey]
    exact cacheLookup_cacheSet_self _ _ _
  refine ⟨by rw [hr1]; exact ⟨rfl, rfl⟩, ?_, ?_⟩
  · intro hfresh
    rw [hr1]
    simp [request, hg2, hhit, hfresh]
  · intro hstale
    rw [hr1]
    have hnotfresh : ¬(now2 - now1 < cacheTTL) := not_lt.mpr hstale
    cases net2 with
    | netFailure message => simp [request, hg2, hhit, hnotfresh]
    | httpResponse status respBody =>
      simp only [request, hg2, hhit, hnotfresh, if_false, if_true]
      split_ifs <;> rfl

/-- Witness for C7 at concrete inputs: a GET at time 0 populates the
cache; a second call at 500ms is served from the cache even though the
network is down at that point. -/
theorem C7_cache_ttl_witness :
    (request (some "GET") "/api/resolume/status" 500 (.netFailure "down")
        (request none "/api/resolume/status" 0 (.httpResponse 200 "payload")
          ⟨[]⟩).state).networkCalled = false ∧
    (request (some "GET") "/api/resolume/status" 500 (.netFailure "down")
        (request none "/api/resolume/status" 0 (.httpResponse 200 "payload")
          ⟨[]⟩).state).result = .ok "payload" := by
  have h := C7_cache_ttl ⟨[]⟩ "/api/resolume/status" "payload" none (some "GET") 0 500
    (.netFailure "down") rfl rfl rfl (by decide)
  exact ⟨(h.2.1 (by decide)).1, (h.2.1 (by decide)).2.1⟩

/-! ## Debounce helper lemmas -/

/-- Closed form of a nonempty burst of setter calls on one debounce
control: the display and the single pending commit carry the last value,
the pending commit's handle is the last one allocated, and the cancelled
handles are the previously pending one followed by the handles allocated
for all but the last call of the burst. -/
theorem debApply_formula (vs : List ℚ) (h : vs ≠ []) (d : DebState) :
    debApply vs d =
      { display := vs.getLast h
        pending := some { id := d.nextId + (vs.length - 1), value := vs.getLast h }
        cancelled := d.cancelled ++ pendingIds d.pending ++
          List.range' d.nextId (vs.length - 1)
        nextId := d.nextId + vs.length } := by
  induction vs generalizing d with
  | nil => exact absurd rfl h
  | cons v vs ih =>
    by_cases hvs : vs = []
    · subst hvs
      simp [debApply, debSet, List.range']
    · have hstep : debApply (v :: vs) d = debApply vs (debSet v d) := rfl
      have hlen : 1 ≤ vs.length := List.length_pos.mpr hvs
      rw [hstep, ih hvs]
      have hlast : vs.getLast hvs = (v :: vs).getLast h := (List.getLast_cons hvs).symm
      have hrange : [d.nextId] ++ List.range' (d.nextId + 1) (vs.length - 1) =
          List.range' d.nextId vs.length := by
        have : vs.length = (vs.length - 1) + 1 := by omega
        rw [this]
        rfl
      simp only [debSet, pendingIds, hlast, DebState.mk.injEq, Option.some.injEq,
        Timer.mk.injEq, List.length_cons, Nat.add_sub_cancel, true_and, and_true]
      refine ⟨by omega, ?_, by omega⟩
      rw [← hrange]
      simp [List.append_assoc]

/-- A nonempty burst of setBpm calls acts on the world by running the
debounce machinery on the BPM control and clearing the error. -/
theorem applyBpmCalls_eq (vs : List ℚ) (h : vs ≠ []) (w : ControlsWorld) :
    applyBpmCalls vs w = { w with bpmCtl := debApply vs w.bpmCtl, error := none } := by
  induction vs generalizing w with
  | nil => exact absurd rfl h
  | cons v vs ih =>
    by_cases hvs : vs = []
    · subst hvs
      rfl
    · have hstep : applyBpmCalls (v :: vs) w = applyBpmCalls vs (setBpmHook v w) := rfl
      rw [hstep, ih hvs]
      rfl

/-- A nonempty burst of setOpacity calls acts on the world by running the
debounce machinery on the opacity control and clearing the error. -/
theorem applyOpacityCalls_eq (vs : List ℚ) (h : vs ≠ []) (w : ControlsWorld) :
    applyOpacityCalls vs w =
      { w with opacityCtl := debApply vs w.opacityCtl, error := none } := by
  induction vs generalizing w with
  | nil => exact absurd rfl h
  | cons v vs ih =>
    by_cases hvs : vs = []
    · subst hvs
      rfl
    · have hstep : applyOpacityCalls (v :: vs) w =
          applyOpacityCalls vs (setOpacityHook v w) := rfl
      rw [hstep, ih hvs]
      rfl

/-- With the gate open (connected, truthy active clip id and index) one
setScrubPosition call runs the debounce machinery on the scrub control. -/
theorem setScrubPositionHook_open (activeClipId : Option Int) (activeClipIndex : Option Nat)
    (hid : jsTruthyInt activeClipId = true) (hidx : jsTruthyNat activeClipIndex = true)
    (v : ℚ) (w : ControlsWorld) :
    setScrubPositionHook true activeClipId activeClipIndex v w =
      { w with scrubCtl := debSet v w.scrubCtl, error := none } := by
  unfold setScrubPositionHook
  simp [hid, hidx]

/-- With the gate open, a nonempty burst of setScrubPosition calls acts on
the world by running the debounce machinery on the scrub control. -/
theorem applyScrubCalls_eq (activeClipId : Option Int) (activeClipIndex : Option Nat)
    (hid : jsTruthyInt activeClipId = true) (hidx : jsTruthyNat activeClipIndex = true)
    (vs : List ℚ) (h : vs ≠ []) (w : ControlsWorld) :
    applyScrubCalls true activeClipId activeClipIndex vs w =
      { w with scrubCtl := debApply vs w.scrubCtl, error := none } := by
  induction vs generalizing w with
  | nil => exact absurd rfl h
  | cons v vs ih =>
    have hstep : applyScrubCalls true activeClipId activeClipIndex (v :: vs) w =
        applyScrubCalls true activeClipId activeClipIndex vs
          (setScrubPositionHook true activeClipId activeClipIndex v w) := rfl
    by_cases hvs : vs = []
    · subst hvs
      rw [hstep]
      exact setScrubPositionHook_open _ _ hid hidx v w
    · rw [hstep, ih hvs, setScrubPositionHook_open _ _ hid hidx v w]
      rfl

/-- Firing the pending BPM commit with an in-range value and a fulfilled
request appends exactly the one BPM write carrying that value. -/
theorem fireBpm_writes (w : ControlsWorld) (t : Timer) (hp : w.bpmCtl.pending = some t)
    (h1 : 20 ≤ t.value) (h2 : t.value ≤ 999) :
    (fireBpm none true w).netWrites = w.netWrites ++ [NetWrite.bpmWrite t.value] := by
  have hv : ¬(t.value < 20 ∨ t.value > 999) := by
    push_neg
    exact ⟨h1, h2⟩
  simp [fireBpm, hp, apiSetBpmWrites, hv, commitResult]

/-- Firing the pending opacity commit with an in-range UI value and a
fulfilled request appends exactly the one layer-opacity write carrying
the value converted to the wire domain. -/
theorem fireOpacity_writes (layer : Nat) (w : ControlsWorld) (t : Timer)
    (hp : w.opacityCtl.pending = some t) (h1 : 0 ≤ t.value) (h2 : t.value ≤ 100) :
    (fireOpacity layer none true w).netWrites =
      w.netWrites ++ [NetWrite.layerOpacityWrite layer (t.value / 100)] := by
  have hv : ¬(t.value / 100 < 0 ∨ t.value / 100 > 1) := by
    push_neg
    constructor
    · positivity
    · rw [div_le_one (by norm_num)]
      linarith
  simp [fireOpacity, hp, apiSetLayerOpacityWrites, hv, commitResult]

/-- Firing the pending scrub commit with an in-range position and a
fulfilled request appends exactly the one clip-position write carrying
that value. -/
theorem fireScrub_writes (layer clip : Nat) (w : ControlsWorld) (t : Timer)
    (hp : w.scrubCtl.pending = some t) (h1 : 0 ≤ t.value) (h2 : t.value ≤ 1) :
    (fireScrub layer clip none true w).netWrites =
      w.netWrites ++ [NetWrite.clipPositionWrite layer clip t.value] := by
  have hv : ¬(t.value < 0 ∨ t.value > 1) := by
    push_neg
    exact ⟨h1, h2⟩
  simp [fireScrub, hp, apiSetClipPositionWrites, hv, commitResult]

/-! ## C3 -/

/-- C3: for a burst of N rapid calls to one parameter setter inside the
debounce window: every call immediately updates that control's local
display value; after the burst, the commits scheduled by the first N-1
calls have all been cancelled and the single pending commit is the one
scheduled by the last call, carrying the last value; no network write
happens during the burst, and when the pending commit then fires with an
in-range value exactly one network write occurs, carrying the last value
supplied (opacity in its wire-domain form).  Stated for each of the
three setters — BPM, opacity, and scrub (the latter with its gate
open). -/
theorem C3_debounce :
    (∀ (v : ℚ) (w : ControlsWorld),
        (setBpmHook v w).bpmCtl.display = v ∧
        (setOpacityHook v w).opacityCtl.display = v) ∧
    (∀ (v : ℚ) (w : ControlsWorld) (aid : Option Int) (aidx : Option Nat),
        jsTruthyInt aid = true → jsTruthyNat aidx = true →
        (setScrubPositionHook true aid aidx v w).scrubCtl.display = v) ∧
    (∀ (w : ControlsWorld) (vs : List ℚ) (h : vs ≠ []),
        w.bpmCtl.pending = none →
        (applyBpmCalls vs w).bpmCtl.display = vs.getLast h ∧
        (applyBpmCalls vs w).bpmCtl.pending =
            some { id := w.bpmCtl.nextId + (vs.length - 1), value := vs.getLast h } ∧
        (applyBpmCalls vs w).bpmCtl.cancelled =
            w.bpmCtl.cancelled ++ List.range' w.bpmCtl.nextId (vs.length - 1) ∧
        (applyBpmCalls vs w).netWrites = w.netWrites ∧
        (20 ≤ vs.getLast h → vs.getLast h ≤ 999 →
            (fireBpm none true (applyBpmCalls vs w)).netWrites =
              w.netWrites ++ [NetWrite.bpmWrite (vs.getLast h)])) ∧
    (∀ (w : ControlsWorld) (vs : List ℚ) (h : vs ≠ []) (layer : Nat),
        w.opacityCtl.pending = none →
        (applyOpacityCalls vs w).opacityCtl.display = vs.getLast h ∧
        (applyOpacityCalls vs w).opacityCtl.pending =
            some { id := w.opacityCtl.nextId + (vs.length - 1), value := vs.getLast h } ∧
        (applyOpacityCalls vs w).opacityCtl.cancelled =
            w.opacityCtl.cancelled ++ List.range' w.opacityCtl.nextId (vs.length - 1) ∧
        (applyOpacityCalls vs w).netWrites = w.netWrites ∧
        (0 ≤ vs.getLast h → vs.getLast h ≤ 100 →
            (fireOpacity layer none true (applyOpacityCalls vs w)).netWrites =
              w.netWrites ++
                [NetWrite.layerOpacityWrite layer (vs.getLast h / 100)])) ∧
    (∀ (w : ControlsWorld) (vs : List ℚ) (h : vs ≠ []) (layer : Nat)
        (aid : Option Int) (aidx : Option Nat) (k : Nat),
        jsTruthyInt aid = true → aidx = some k → jsTruthyNat aidx = true →
        w.scrubCtl.pending = none →
        (applyScrubCalls true aid aidx vs w).scrubCtl.display = vs.getLast h ∧
        (applyScrubCalls true aid aidx vs w).scrubCtl.pending =
            some { id := w.scrubCtl.nextId + (vs.length - 1), value := vs.getLast h } ∧
        (applyScrubCalls true aid aidx vs w).scrubCtl.cancelled =
            w.scrubCtl.cancelled ++ List.range' w.scrubCtl.nextId (vs.length - 1) ∧
        (applyScrubCalls true aid aidx vs w).netWrites = w.netWrites ∧
        (0 ≤ vs.getLast h → vs.getLast h ≤ 1 →
            (fireScrub layer k none true (applyScrubCalls true aid aidx vs w)).netWrites =
              w.netWrites ++
                [NetWrite.clipPositionWrite layer k (vs.getLast h)])) := by
  refine ⟨?_, ?_, ?_, ?_, ?_⟩
  · intro v w
    exact ⟨rfl, rfl⟩
  · intro v w aid aidx hid hidx
    rw [setScrubPositionHook_open aid aidx hid hidx v w]
    rfl
  · intro w vs h hp
    have he := applyBpmCalls_eq vs h w
    have hd := debApply_formula vs h w.bpmCtl
    rw [hp] at hd
    simp only [pendingIds, List.append_nil] at hd
    refine ⟨by rw [he, hd], by rw [he, hd], by rw [he, hd], by rw [he], ?_⟩
    intro h1 h2
    have hwp : (applyBpmCalls vs w).bpmCtl.pending =
        some { id := w.bpmCtl.nextId + (vs.length - 1), value := vs.getLast h } := by
      rw [he, hd]
    have := fireBpm_writes (applyBpmCalls vs w) _ hwp h1 h2
    rw [this, he]
  · intro w vs h layer hp
    have he := applyOpacityCalls_eq vs h w
    have hd := debApply_formula vs h w.opacityCtl
    rw [hp] at hd
    simp only [pendingIds, List.append_nil] at hd
    refine ⟨by rw [he, hd], by rw [he, hd], by rw [he, hd], by rw [he], ?_⟩
    intro h1 h2
    have hwp : (applyOpacityCalls vs w).opacityCtl.pending =
        some { id := w.opacityCtl.nextId + (vs.length - 1), value := vs.getLast h } := by
      rw [he, hd]
    have := fireOpacity_writes layer (applyOpacityCalls vs w) _ hwp h1 h2
    rw [this, he]
  · intro w vs h layer aid aidx k hid hk hidx hp
    subst hk
    have he := applyScrubCalls_eq aid (some k) hid hidx vs h w
    have hd := debApply_formula vs h w.scrubCtl
    rw [hp] at hd
    simp only [pendingIds, List.append_nil] at hd
    refine ⟨by rw [he, hd], by rw [he, hd], by rw [he, hd], by rw [he], ?_⟩
    intro h1 h2
    have hwp : (applyScrubCalls true aid (some k) vs w).scrubCtl.pending =
        some { id := w.scrubCtl.nextId + (vs.length - 1), value := vs.getLast h } := by
      rw [he, hd]
    have := fireScrub_writes layer k (applyScrubCalls true aid (some k) vs w) _ hwp h1 h2
    rw [this, he]

/-- Witness for C3 at a concrete burst: three rapid setBpm calls from the
mount state cancel the first two scheduled commits, leave the third
pending with the last value 140, and firing it produces exactly one
network write carrying 140. -/
theorem C3_debounce_witness :
    (applyBpmCalls [100, 130, 140] initControls).bpmCtl.display = 140 ∧
    (applyBpmCalls [100, 130, 140] initControls).bpmCtl.pending =
        some { id := 2, value := 140 } ∧
    (applyBpmCalls [100, 130, 140] initControls).bpmCtl.cancelled = [0, 1] ∧
    (applyBpmCalls [100, 130, 140] initControls).netWrites = [] ∧
    (fireBpm none true (applyBpmCalls [100, 130, 140] initControls)).netWrites =
      [NetWrite.bpmWrite 140] := by
  have h := C3_debounce.2.2.1 initControls [100, 130, 140] (by simp) rfl
  have hlast : ([100, 130, 140] : List ℚ).getLast (by simp) = 140 := rfl
  refine ⟨?_, ?_, ?_, ?_, ?_⟩
  · rw [h.1, hlast]
  · rw [h.2.1]
    rfl
  · rw [h.2.2.1]
    rfl
  · exact h.2.2.2.1
  · rw [h.2.2.2.2 (by rw [hlast]; norm_num) (by rw [hlast]; norm_num)]
    rw [hlast]
    rfl

end Resofleur
